import Mathlib

/-!
Verification of the loggo logging library (Go) against its specification.

Shallow embedding conventions:
* Go strings are modelled as `List Char`; `len` is the list length (the
  messages and templates in the specification are ASCII, where byte length
  and character count coincide — the spec itself flags the byte/rune
  distinction as an open question).
* Go panics (index out of range, slice bounds out of range) are modelled by
  `Option`: a function that can panic returns `none` exactly on the inputs
  where the Go code panics.
* The Go standard library text/template engine is embedded for the fragment
  the logger exercises: literal text, field actions of the shape `.Name`,
  and the padding action `printf "%Ns" .Name`.  As in Go, execution streams
  into the writer node by node, so output produced before a failing action
  stays written, and a write error from the sink aborts execution and is
  returned from Execute.  Diagnostic strings are abridged; the claims only
  depend on the wrapper prefixes added in logger.go.
* The sink (io.Writer) is a function from a chunk to a write outcome; the
  bytes actually written during a call are collected in the result.
* Hooks mutate the message through a pointer in Go; here a hook is a
  function from the current message to the new message.  The Logger
  argument Go passes to each hook is not consulted by any property below
  and is omitted to keep the structure definable.
-/

set_option autoImplicit false

/-- Log levels, a byte in Go (`type Level byte`); Debug = 0 … Fatal = 4.
Byte values are the naturals below 256; the ordering is the numeric one. -/
abbrev Level : Type := Nat

def LevelDebug : Level := 0
def LevelInfo : Level := 1
def LevelWarn : Level := 2
def LevelError : Level := 3
def LevelFatal : Level := 4

/-- The display-name array of level.go:
`[...]string\x7b"DEBUG", "INFO", "WARN", "ERROR", "FATAL"\x7d`. -/
def levelNames : List (List Char) :=
  ["DEBUG".data, "INFO".data, "WARN".data, "ERROR".data, "FATAL".data]

/-- Level.String indexes the five-element name array with the level value;
for a level above 4 the Go code panics with index out of range (`none`). -/
def Level.String (l : Level) : Option (List Char) :=
  levelNames.get? l

/-- Result of a CallerProvider call: `(pc uintptr, file string, line int, ok bool)`. -/
structure CallerInfo where
  pc : Nat
  file : List Char
  line : Int
  ok : Bool
  deriving DecidableEq

/-- CallerProvider is a function returning the caller information. -/
def CallerProvider : Type := Unit → CallerInfo

/-- Decimal rendering of a Go int, as fmt.Sprintf with the verb for integers
produces it: an optional minus sign followed by the digits. -/
def intToChars (i : Int) : List Char :=
  if i < 0 then '-' :: Nat.toDigits 10 i.natAbs else Nat.toDigits 10 i.toNat

/-- getCaller of data.go: the fallback "unknown" when ok is false, else
the file, a colon and the line number. -/
def getCaller (cp : CallerProvider) : List Char :=
  let r := cp ()
  if r.ok then r.file ++ ':' :: intToChars r.line else "unknown".data

/-- truncateString of data.go.  Go compares the byte length with maxSize
(an int); when the string is longer it takes the slice up to maxSize, which
panics (slice bounds out of range, modelled as `none`) when maxSize is
negative.  A string no longer than maxSize is returned unchanged. -/
def truncateString (input : List Char) (maxSize : Int) : Option (List Char) :=
  if (input.length : Int) > maxSize then
    if maxSize < 0 then none
    else some (input.take maxSize.toNat)
  else some input

/-- A wall-clock instant, the part of Go time.Time the logger renders. -/
structure GoTime where
  year : Nat
  month : Nat
  day : Nat
  hour : Nat
  minute : Nat
  second : Nat
  deriving DecidableEq

/-- TimeProvider is a function returning the current time. -/
def TimeProvider : Type := Unit → GoTime

def pad2 (n : Nat) : List Char :=
  if n < 10 then '0' :: Nat.toDigits 10 n else Nat.toDigits 10 n

def pad4 (n : Nat) : List Char :=
  if n < 10 then '0' :: '0' :: '0' :: Nat.toDigits 10 n
  else if n < 100 then '0' :: '0' :: Nat.toDigits 10 n
  else if n < 1000 then '0' :: Nat.toDigits 10 n
  else Nat.toDigits 10 n

/-- Go time.Time.Format restricted to the reference-time tokens that the
default layout "2006-01-02 15:04:05" uses; characters outside a token are
copied verbatim, exactly as Go does. -/
def formatTime (t : GoTime) : List Char → List Char
  | '2' :: '0' :: '0' :: '6' :: rest => pad4 t.year ++ formatTime t rest
  | '0' :: '1' :: rest => pad2 t.month ++ formatTime t rest
  | '0' :: '2' :: rest => pad2 t.day ++ formatTime t rest
  | '1' :: '5' :: rest => pad2 t.hour ++ formatTime t rest
  | '0' :: '4' :: rest => pad2 t.minute ++ formatTime t rest
  | '0' :: '5' :: rest => pad2 t.second ++ formatTime t rest
  | c :: rest => c :: formatTime t rest
  | [] => []

/-- Data handed to the template, the templateData struct of data.go. -/
structure templateData where
  Level : List Char
  Time : List Char
  Message : List Char
  Caller : List Char
  deriving DecidableEq

/-- A parsed template node: literal text, a field action `.Name`, or the
width-padding action `printf "%Ns" .Name`. -/
inductive Node where
  | text (s : List Char)
  | field (name : List Char)
  | pad (width : Nat) (name : List Char)
  deriving DecidableEq

def isIdentChar (c : Char) : Bool :=
  c.isAlphanum || c = '_'

def trimSpaces (l : List Char) : List Char :=
  ((l.dropWhile (· = ' ')).reverse.dropWhile (· = ' ')).reverse

def charsToNat (l : List Char) : Nat :=
  l.foldl (fun acc c => acc * 10 + (c.toNat - 48)) 0

/-- Scan up to the first opening action delimiter; the leading text and,
when the delimiter occurs, the remainder after it. -/
def findOpen : List Char → List Char × Option (List Char)
  | '\x7b' :: '\x7b' :: rest => ([], some rest)
  | c :: rest =>
    let p := findOpen rest
    (c :: p.1, p.2)
  | [] => ([], none)

/-- Scan up to the closing action delimiter; `none` when the action is
never closed. -/
def findClose : List Char → Option (List Char × List Char)
  | '\x7d' :: '\x7d' :: rest => some ([], rest)
  | c :: rest => (findClose rest).map (fun p => (c :: p.1, p.2))
  | [] => none

def parsePrintf (rest : List Char) : Except (List Char) Node :=
  match rest with
  | '"' :: '%' :: r2 =>
    match r2.takeWhile Char.isDigit, r2.dropWhile Char.isDigit with
    | [], _ => .error "bad printf action".data
    | ds, 's' :: '"' :: ' ' :: '.' :: name =>
      if (!name.isEmpty) && name.all isIdentChar then
        .ok (.pad (charsToNat ds) name)
      else .error "bad printf action".data
    | _, _ => .error "bad printf action".data
  | _ => .error "bad printf action".data

/-- Parse the inside of one action: a field reference or a padding printf
call; anything else is a parse failure, as an unknown function or a bad
character is in Go. -/
def parseAction (content : List Char) : Except (List Char) Node :=
  match trimSpaces content with
  | '.' :: name =>
    if (!name.isEmpty) && name.all isIdentChar then .ok (.field name)
    else .error "bad character in action".data
  | 'p' :: 'r' :: 'i' :: 'n' :: 't' :: 'f' :: ' ' :: rest => parsePrintf rest
  | _ => .error "function not defined".data

/-- Fuel-indexed template scanner; each step consumes past one action, so
the input length is enough fuel. -/
def parseGo : Nat → List Char → Except (List Char) (List Node)
  | 0, _ => .error "out of fuel".data
  | fuel + 1, input =>
    match findOpen input with
    | (text, none) => .ok (if text.isEmpty then [] else [.text text])
    | (text, some rest) =>
      match findClose rest with
      | none => .error "unclosed action".data
      | some (content, rest2) =>
        match parseAction content with
        | .error d => .error d
        | .ok node =>
          match parseGo fuel rest2 with
          | .error d => .error d
          | .ok nodes =>
            .ok (if text.isEmpty then node :: nodes else .text text :: node :: nodes)

/-- Compile a template source, as template.Parse does for the fragment of
the action language the logger uses. -/
def parseTemplate (input : List Char) : Except (List Char) (List Node) :=
  parseGo (input.length + 1) input

/-- Field lookup on the render data; an unknown name is an execution
error in Go ("can't evaluate field ..."). -/
def lookupField (d : templateData) (name : List Char) : Option (List Char) :=
  if name = "Level".data then some d.Level
  else if name = "Time".data then some d.Time
  else if name = "Message".data then some d.Message
  else if name = "Caller".data then some d.Caller
  else none

/-- Right-justify to the requested width with spaces, the effect of the
%Ns printf verb on a short string. -/
def padLeftSpaces (width : Nat) (s : List Char) : List Char :=
  List.replicate (width - s.length) ' ' ++ s

/-- Evaluate one node to the chunk it emits, or an execution error. -/
def execNode (d : templateData) : Node → Except (List Char) (List Char)
  | .text s => .ok s
  | .field name =>
    match lookupField d name with
    | some v => .ok v
    | none => .error ("cannot evaluate field ".data ++ name ++ " in type templateData".data)
  | .pad width name =>
    match lookupField d name with
    | some v => .ok (padLeftSpaces width v)
    | none => .error ("cannot evaluate field ".data ++ name ++ " in type templateData".data)

/-- Outcome of one io.Writer.Write call. -/
inductive WriteResult where
  | ok
  | fail (msg : List Char)
  deriving DecidableEq

/-- A sink (io.Writer): maps the chunk offered to the outcome of writing it. -/
def GoWriter : Type := List Char → WriteResult

/-- Execute parsed nodes against the data, streaming each chunk into the
writer as template.Execute does: the pair holds the bytes successfully
written and the error, if any, that stopped execution (an evaluation
failure or a write failure of the sink). -/
def executeTemplate (w : GoWriter) (d : templateData) : List Node → List Char × Option (List Char)
  | [] => ([], none)
  | n :: rest =>
    match execNode d n with
    | .error e => ([], some e)
    | .ok s =>
      match w s with
      | .fail e => ([], some e)
      | .ok =>
        let p := executeTemplate w d rest
        (s ++ p.1, p.2)

/-- A hook transforms the pending message (Go mutates it through a
pointer); see the embedding conventions above. -/
def Hook : Type := List Char → List Char

/-- The Logger struct of logger.go.  The mutex only serializes the write
and plays no role in the single-call properties below; the context field
is opaque and unused by the pipeline. -/
structure Logger where
  Threshold : Level
  output : GoWriter
  template : List Char
  now : TimeProvider
  timeFormat : List Char
  maxSize : Int
  callerProvider : CallerProvider
  preHooks : List Hook
  postHooks : List Hook

/-- An Option of options.go configures a Logger (`func(*Logger)`); the
name LoggerOption avoids shadowing the Option type of the logic. -/
def LoggerOption : Type := Logger → Logger

def WithOutput (output : GoWriter) : LoggerOption :=
  fun l => { l with output := output }

def WithTemplate (template : List Char) : LoggerOption :=
  fun l => { l with template := template }

def WithTimeProvider (provider : TimeProvider) : LoggerOption :=
  fun l => { l with now := provider }

def WithTimeFormat (format : List Char) : LoggerOption :=
  fun l => { l with timeFormat := format }

def WithMaxSize (size : Int) : LoggerOption :=
  fun l => { l with maxSize := size }

def WithCallerProvider (provider : CallerProvider) : LoggerOption :=
  fun l => { l with callerProvider := provider }

def WithPreHook (hook : Hook) : LoggerOption :=
  fun l => { l with preHooks := l.preHooks ++ [hook] }

def WithPostHook (hook : Hook) : LoggerOption :=
  fun l => { l with postHooks := l.postHooks ++ [hook] }

/-- The sink that stands for os.Stdout: every write succeeds. -/
def osStdout : GoWriter := fun _ => .ok

/-- The default caller provider calls runtime.Caller 5, whose result
depends on the real call stack and lies outside the embedding; no claim
below consults it (the default template has no Caller field), so it is
pinned to a failed resolution here.  A logger under test replaces it via
WithCallerProvider, as the tests of the repository do. -/
def defaultCaller : CallerProvider := fun _ => ⟨0, [], 0, false⟩

/-- The default time provider stands for time.Now; the instant is
irrelevant to every claim (each fixes the provider via WithTimeProvider
where the time matters), so an arbitrary instant represents it. -/
def defaultNow : TimeProvider := fun _ => ⟨2024, 9, 3, 0, 0, 0⟩

/-- The default template of New, written with escaped braces:
"\x7b\x7b.Time\x7d\x7d [\x7b\x7bprintf \"%5s\" .Level\x7d\x7d]: \x7b\x7b.Message\x7d\x7d". -/
def defaultTemplate : List Char :=
  "\x7b\x7b.Time\x7d\x7d [\x7b\x7bprintf \"%5s\" .Level\x7d\x7d]: \x7b\x7b.Message\x7d\x7d".data

/-- New of logger.go: the defaults, then the options applied in order. -/
def New (threshold : Level) (options : List LoggerOption) : Logger :=
  let log : Logger :=
    { Threshold := threshold
      output := osStdout
      template := defaultTemplate
      now := defaultNow
      timeFormat := "2006-01-02 15:04:05".data
      maxSize := 1000
      callerProvider := defaultCaller
      preHooks := []
      postHooks := [] }
  options.foldl (fun l option => option l) log

/-- getTemplateData of data.go: display name of the level, formatted
time, truncated message and caller string.  Go builds the struct literal
field by field; a panic of Level.String or truncateString aborts the call
(`none`). -/
def getTemplateData (level : Level) (message : List Char) (logger : Logger) : Option templateData :=
  match Level.String level with
  | none => none
  | some lv =>
    match truncateString message logger.maxSize with
    | none => none
    | some msg => some
        { Level := lv
          Time := formatTime (logger.now ()) logger.timeFormat
          Message := msg
          Caller := getCaller logger.callerProvider }

/-- The Go for-loop running the hooks over the message in order. -/
def applyHooks (hooks : List Hook) (message : List Char) : List Char :=
  hooks.foldl (fun m h => h m) message

/-- Observable outcome of one LogE call: the returned error (`none` is
the Go nil), the bytes the sink received, the message after the pre-hooks
ran, whether the post-hooks ran, and the message after every hook ran. -/
structure LogResult where
  error : Option (List Char)
  written : List Char
  msgAfterPre : List Char
  postRan : Bool
  finalMessage : List Char
  deriving DecidableEq

/-- The body of LogE after the pre-hook loop, with `msg` the message the
loop left behind: the threshold gate, data assembly, template parse of
the template plus a newline, execution streaming into the sink, and the
post-hooks on success.  The outer `none` is a Go panic escaping the
call. -/
def logAfterPre (l : Logger) (level : Level) (msg : List Char) : Option LogResult :=
  if l.Threshold > level then
    some { error := none, written := [], msgAfterPre := msg, postRan := false, finalMessage := msg }
  else
    match getTemplateData level msg l with
    | none => none
    | some data =>
      match parseTemplate (l.template ++ ['\n']) with
      | .error d =>
        some { error := some ("error parsing template: ".data ++ d), written := [],
               msgAfterPre := msg, postRan := false, finalMessage := msg }
      | .ok nodes =>
        match executeTemplate l.output data nodes with
        | (written, some d) =>
          some { error := some ("error executing template: ".data ++ d), written := written,
                 msgAfterPre := msg, postRan := false, finalMessage := msg }
        | (written, none) =>
          some { error := none, written := written, msgAfterPre := msg, postRan := true,
                 finalMessage := applyHooks l.postHooks msg }

/-- LogE of logger.go: the pre-hooks run over the message first, then the
rest of the pipeline. -/
def LogE (l : Logger) (level : Level) (message : List Char) : Option LogResult :=
  logAfterPre l level (applyHooks l.preHooks message)

/-- Log of logger.go discards the error of LogE (`_ = l.LogE(...)`); its
observable behavior is the side effects of the same call. -/
def Log (l : Logger) (level : Level) (message : List Char) : Option (List Char × List Char × Bool) :=
  (LogE l level message).map (fun r => (r.written, r.finalMessage, r.postRan))

/-- LogfE formats the message with fmt.Sprintf and delegates to LogE; the
printf interpolation happens before the pipeline, so the embedding takes
the already formatted message. -/
def LogfE (l : Logger) (level : Level) (formatted : List Char) : Option LogResult :=
  LogE l level formatted

/-- Logf formats and delegates to Log. -/
def Logf (l : Logger) (level : Level) (formatted : List Char) : Option (List Char × List Char × Bool) :=
  Log l level formatted

/-- Deterministic time provider used throughout the tests of the
repository: 2022-01-25 00:00:00. -/
def fakeNow : TimeProvider := fun _ => ⟨2022, 1, 25, 0, 0, 0⟩

/-- A logger with the default configuration except for the pinned clock. -/
def fixedTimeLogger (threshold : Level) : Logger :=
  New threshold [WithTimeProvider fakeNow]

/-- A malformed template: the action is never closed. -/
def unclosedTemplate : List Char := "\x7b\x7b.Time".data

/-- A template whose only action references a field the render data does
not expose. -/
def badFieldTemplate : List Char := "\x7b\x7b.Bogus\x7d\x7d".data

def unclosedLogger (threshold : Level) : Logger :=
  New threshold [WithTemplate unclosedTemplate, WithTimeProvider fakeNow]

def badFieldLogger (threshold : Level) : Logger :=
  New threshold [WithTemplate badFieldTemplate, WithTimeProvider fakeNow]

/-- A template that emits literal text before reaching an undefined
field, exhibiting the streaming behavior of template execution. -/
def partialWriteLogger : Logger :=
  New LevelInfo [WithTemplate "A\x7b\x7b.Bogus\x7d\x7d".data, WithTimeProvider fakeNow]

/-- A sink whose every write fails. -/
def failingSink : GoWriter := fun _ => .fail "write error".data

def failingSinkLogger : Logger :=
  New LevelInfo [WithTimeProvider fakeNow, WithOutput failingSink]

/-- A logger with pre-hooks [A, B] and post-hooks [C, D], registered in
that order, with the clock pinned. -/
def hookLogger (A B C D : Hook) (threshold : Level) : Logger :=
  New threshold [WithTimeProvider fakeNow, WithPreHook A, WithPreHook B,
                 WithPostHook C, WithPostHook D]

/-- The node list the default template plus the trailing newline parses
to. -/
def defaultNodes : List Node :=
  [Node.field "Time".data, Node.text " [".data, Node.pad 5 "Level".data,
   Node.text "]: ".data, Node.field "Message".data, Node.text ['\n']]

theorem lookupField_Time (d : templateData) : lookupField d "Time".data = some d.Time := rfl

theorem lookupField_Level (d : templateData) : lookupField d "Level".data = some d.Level := rfl

theorem lookupField_Message (d : templateData) : lookupField d "Message".data = some d.Message := rfl

theorem lookupField_Bogus (d : templateData) : lookupField d "Bogus".data = none := rfl

/-- The default template plus the trailing newline parses to the expected
node list. -/
theorem parseTemplate_default : parseTemplate (defaultTemplate ++ ['\n']) = .ok defaultNodes := rfl

/-- Executing the default node list against any render data over a sink
that accepts every write emits the template fields in order, newline
last, and no error. -/
theorem executeTemplate_defaultNodes (d : templateData) :
    executeTemplate osStdout d defaultNodes =
      (d.Time ++ (" [".data ++ (padLeftSpaces 5 d.Level ++ ("]: ".data ++ (d.Message ++ ['\n'])))),
       none) := rfl

/-- Render-data assembly when the level has a display name and the
truncation does not panic. -/
theorem getTemplateData_eq (l : Logger) (level : Level) (msg name tm : List Char)
    (hname : Level.String level = some name)
    (htm : truncateString msg l.maxSize = some tm) :
    getTemplateData level msg l = some
      { Level := name, Time := formatTime (l.now ()) l.timeFormat, Message := tm,
        Caller := getCaller l.callerProvider } := by
  unfold getTemplateData
  rw [hname, htm]

theorem getTemplateData_none_of_level (l : Logger) (level : Level) (msg : List Char)
    (h : Level.String level = none) : getTemplateData level msg l = none := by
  unfold getTemplateData
  rw [h]

theorem getTemplateData_none_of_trunc (l : Logger) (level : Level) (msg : List Char)
    (h : truncateString msg l.maxSize = none) : getTemplateData level msg l = none := by
  unfold getTemplateData
  cases hname : Level.String level with
  | none => rfl
  | some lv => rw [h]

/-- The pipeline below the threshold: nothing further happens. -/
theorem logAfterPre_drop (l : Logger) (level : Level) (msg : List Char)
    (hgate : l.Threshold > level) :
    logAfterPre l level msg =
      some { error := none, written := [], msgAfterPre := msg, postRan := false,
             finalMessage := msg } := by
  unfold logAfterPre
  rw [if_pos hgate]

/-- The pipeline when data assembly panics. -/
theorem logAfterPre_panic (l : Logger) (level : Level) (msg : List Char)
    (hgate : ¬ l.Threshold > level)
    (hdata : getTemplateData level msg l = none) :
    logAfterPre l level msg = none := by
  unfold logAfterPre
  rw [if_neg hgate, hdata]

/-- The pipeline when the template does not parse. -/
theorem logAfterPre_parse_error (l : Logger) (level : Level) (msg : List Char)
    (data : templateData) (d : List Char)
    (hgate : ¬ l.Threshold > level)
    (hdata : getTemplateData level msg l = some data)
    (hparse : parseTemplate (l.template ++ ['\n']) = .error d) :
    logAfterPre l level msg =
      some { error := some ("error parsing template: ".data ++ d), written := [],
             msgAfterPre := msg, postRan := false, finalMessage := msg } := by
  unfold logAfterPre
  rw [if_neg hgate, hdata, hparse]

/-- The pipeline when execution stops with an error (an evaluation
failure or a failed sink write). -/
theorem logAfterPre_exec_error (l : Logger) (level : Level) (msg : List Char)
    (data : templateData) (nodes : List Node) (written d : List Char)
    (hgate : ¬ l.Threshold > level)
    (hdata : getTemplateData level msg l = some data)
    (hparse : parseTemplate (l.template ++ ['\n']) = .ok nodes)
    (hexec : executeTemplate l.output data nodes = (written, some d)) :
    logAfterPre l level msg =
      some { error := some ("error executing template: ".data ++ d), written := written,
             msgAfterPre := msg, postRan := false, finalMessage := msg } := by
  unfold logAfterPre
  rw [if_neg hgate, hdata, hparse]
  simp only [hexec]

/-- The pipeline on full success: the rendered bytes reach the sink and
the post-hooks run. -/
theorem logAfterPre_emit (l : Logger) (level : Level) (msg : List Char)
    (data : templateData) (nodes : List Node) (written : List Char)
    (hgate : ¬ l.Threshold > level)
    (hdata : getTemplateData level msg l = some data)
    (hparse : parseTemplate (l.template ++ ['\n']) = .ok nodes)
    (hexec : executeTemplate l.output data nodes = (written, none)) :
    logAfterPre l level msg =
      some { error := none, written := written, msgAfterPre := msg, postRan := true,
             finalMessage := applyHooks l.postHooks msg } := by
  unfold logAfterPre
  rw [if_neg hgate, hdata, hparse]
  simp only [hexec]

/-- The pinned clock renders to the expected timestamp under the default
layout. -/
theorem fixedTime_format (threshold : Level) :
    formatTime ((fixedTimeLogger threshold).now ()) (fixedTimeLogger threshold).timeFormat =
      "2022-01-25 00:00:00".data := by
  show formatTime (fakeNow ()) "2006-01-02 15:04:05".data = "2022-01-25 00:00:00".data
  rfl

/-- C1: for every logger and every level strictly below the threshold,
LogE returns nil, writes nothing to the sink and runs no post-hook, yet
the registered pre-hooks have all been applied to the message, in
registration order, before the threshold check. -/
theorem c1_below_threshold_prehooks_still_run (l : Logger) (level : Level) (message : List Char)
    (h : level < l.Threshold) :
    LogE l level message =
      some { error := none, written := [], msgAfterPre := applyHooks l.preHooks message,
             postRan := false, finalMessage := applyHooks l.preHooks message } := by
  unfold LogE
  exact logAfterPre_drop l level (applyHooks l.preHooks message) h

theorem c1_witness :
    LogE (New LevelWarn [WithPreHook (fun m => m ++ "!".data)]) LevelInfo "hi".data =
      some { error := none, written := [], msgAfterPre := "hi!".data, postRan := false,
             finalMessage := "hi!".data } := by
  have h := c1_below_threshold_prehooks_still_run
      (New LevelWarn [WithPreHook (fun m => m ++ "!".data)]) LevelInfo "hi".data (by decide)
  exact h.trans (by decide)

/-- C2: at or above the threshold, LogE writes exactly one
newline-terminated line: the formatted fixed time, the padded display
name of the level and the truncated message, in the order the default
template dictates, and returns nil; at Info over Info with message
"hello" and the clock fixed to 2022-01-25 00:00:00 the sink receives
exactly "2022-01-25 00:00:00 [ INFO]: hello" and a newline. -/
theorem c2_emits_single_rendered_line (threshold level : Level) (message name tm : List Char)
    (hth : threshold ≤ level) (hname : Level.String level = some name)
    (htm : truncateString message 1000 = some tm) :
    LogE (fixedTimeLogger threshold) level message =
      some { error := none,
             written := "2022-01-25 00:00:00 [".data ++
               (padLeftSpaces 5 name ++ ("]: ".data ++ (tm ++ ['\n']))),
             msgAfterPre := message, postRan := true, finalMessage := message } := by
  have hgate : ¬ (fixedTimeLogger threshold).Threshold > level := Nat.not_lt.mpr hth
  have hdata := getTemplateData_eq (fixedTimeLogger threshold) level message name tm hname htm
  have hexec := executeTemplate_defaultNodes
      { Level := name,
        Time := formatTime ((fixedTimeLogger threshold).now ())
          (fixedTimeLogger threshold).timeFormat,
        Message := tm, Caller := getCaller (fixedTimeLogger threshold).callerProvider }
  have h := logAfterPre_emit (fixedTimeLogger threshold) level message _ defaultNodes _
      hgate hdata parseTemplate_default hexec
  unfold LogE
  refine h.trans ?_
  norm_num [fixedTime_format]
  rfl

theorem c2_witness :
    LogE (fixedTimeLogger LevelInfo) LevelInfo "hello".data =
      some { error := none, written := "2022-01-25 00:00:00 [ INFO]: hello\n".data,
             msgAfterPre := "hello".data, postRan := true, finalMessage := "hello".data } := by
  have h := c2_emits_single_rendered_line LevelInfo LevelInfo "hello".data "INFO".data
      "hello".data (by decide) (by decide) (by decide)
  exact h.trans (by decide)

/-- C3: truncation takes the prefix of exactly n units when the message
is longer than n, with no suffix marker, and returns the message
unchanged (so truncation is idempotent) otherwise; with maxSize 5 and
message "hello world" the rendered Message field is "hello". -/
theorem c3_truncation_prefix_idempotent (msg : List Char) (n : Nat) :
    (n < msg.length →
      truncateString msg (n : Int) = some (msg.take n) ∧ (msg.take n).length = n ∧
      ∃ rest, msg.take n ++ rest = msg) ∧
    (msg.length ≤ n → truncateString msg (n : Int) = some msg) ∧
    (∀ r, truncateString msg (n : Int) = some r → truncateString r (n : Int) = some r) ∧
    getTemplateData LevelInfo "hello world".data
        (New LevelInfo [WithMaxSize 5, WithTimeProvider fakeNow]) =
      some { Level := "INFO".data, Time := "2022-01-25 00:00:00".data,
             Message := "hello".data, Caller := "unknown".data } := by
  refine ⟨?_, ?_, ?_, by decide⟩
  · intro h
    have hgt : (msg.length : Int) > (n : Int) := by exact_mod_cast h
    unfold truncateString
    rw [if_pos hgt, if_neg (by omega)]
    refine ⟨by simp, by rw [List.length_take]; omega, msg.drop n, List.take_append_drop n msg⟩
  · intro h
    unfold truncateString
    rw [if_neg (by omega)]
  · intro r hr
    unfold truncateString at hr ⊢
    split at hr
    case isTrue hgt =>
      rw [if_neg (by omega)] at hr
      injection hr with hr
      subst hr
      rw [if_neg (by rw [List.length_take]; omega)]
    case isFalse hle =>
      injection hr with hr
      subst hr
      rw [if_neg hle]

theorem c3_witness :
    truncateString "hello world".data (5 : Int) = some "hello".data ∧
    ("hello world".data.take 5).length = 5 ∧
    truncateString "hello".data (5 : Int) = some "hello".data := by
  have h := c3_truncation_prefix_idempotent "hello world".data 5
  have h2 := (h.1 (by decide)).1
  exact ⟨h2.trans (by decide), (h.1 (by decide)).2.1,
    (c3_truncation_prefix_idempotent "hello".data 5).2.1 (by decide)⟩

/-- C4: whenever the caller provider reports no success the rendered
caller string is exactly the literal "unknown"; whenever it reports
success with file f and line n it is f, a colon and the decimal line
number. -/
theorem c4_caller_string (cp : CallerProvider) :
    ((cp ()).ok = false → getCaller cp = "unknown".data) ∧
    ((cp ()).ok = true → getCaller cp = (cp ()).file ++ ':' :: intToChars (cp ()).line) := by
  constructor <;> intro h <;> simp [getCaller, h]

theorem c4_witness :
    getCaller (fun _ => ⟨0, "file".data, 1, true⟩) = "file:1".data ∧
    getCaller (fun _ => ⟨0, [], 0, false⟩) = "unknown".data := by
  refine ⟨((c4_caller_string (fun _ => ⟨0, "file".data, 1, true⟩)).2 rfl).trans (by decide),
    (c4_caller_string (fun _ => ⟨0, [], 0, false⟩)).1 rfl⟩

/-- C5: at or above the threshold, a malformed template makes LogE
return a non-nil error whose message is the parse diagnostic behind the
wrapper "error parsing template: ", and a template referencing a field
the render data does not expose makes it return one behind
"error executing template: "; the fire-and-forget Log runs the same
pipeline and discards the error, so the call completes with nothing
written and no post-hook run. -/
theorem c5_template_error_wrapping (threshold level : Level) (message name tm : List Char)
    (hth : threshold ≤ level) (hname : Level.String level = some name)
    (htm : truncateString message 1000 = some tm) :
    (∃ d, (LogE (unclosedLogger threshold) level message).map (fun r => r.error) =
      some (some ("error parsing template: ".data ++ d))) ∧
    (∃ d, (LogE (badFieldLogger threshold) level message).map (fun r => r.error) =
      some (some ("error executing template: ".data ++ d))) ∧
    Log (unclosedLogger threshold) level message = some ([], message, false) ∧
    Log (badFieldLogger threshold) level message = some ([], message, false) := by
  have hgate1 : ¬ (unclosedLogger threshold).Threshold > level := Nat.not_lt.mpr hth
  have hdata1 := getTemplateData_eq (unclosedLogger threshold) level message name tm hname htm
  have hparse1 : parseTemplate ((unclosedLogger threshold).template ++ ['\n']) =
      .error "unclosed action".data := rfl
  have h1 : LogE (unclosedLogger threshold) level message =
      some { error := some ("error parsing template: ".data ++ "unclosed action".data),
             written := [], msgAfterPre := message, postRan := false,
             finalMessage := message } := by
    unfold LogE
    exact logAfterPre_parse_error (unclosedLogger threshold) level message _ _
      hgate1 hdata1 hparse1
  have hgate2 : ¬ (badFieldLogger threshold).Threshold > level := Nat.not_lt.mpr hth
  have hdata2 := getTemplateData_eq (badFieldLogger threshold) level message name tm hname htm
  have hparse2 : parseTemplate ((badFieldLogger threshold).template ++ ['\n']) =
      .ok [Node.field "Bogus".data, Node.text ['\n']] := rfl
  have hexec2 : executeTemplate (badFieldLogger threshold).output
      { Level := name,
        Time := formatTime ((badFieldLogger threshold).now ())
          (badFieldLogger threshold).timeFormat,
        Message := tm, Caller := getCaller (badFieldLogger threshold).callerProvider }
      [Node.field "Bogus".data, Node.text ['\n']] =
      ([], some ("cannot evaluate field ".data ++ "Bogus".data ++ " in type templateData".data)) := rfl
  have h2 : LogE (badFieldLogger threshold) level message =
      some { error := some ("error executing template: ".data ++
               ("cannot evaluate field ".data ++ "Bogus".data ++ " in type templateData".data)),
             written := [], msgAfterPre := message, postRan := false,
             finalMessage := message } := by
    unfold LogE
    exact logAfterPre_exec_error (badFieldLogger threshold) level message _ _ _ _
      hgate2 hdata2 hparse2 hexec2
  refine ⟨⟨"unclosed action".data, by rw [h1]; rfl⟩,
    ⟨"cannot evaluate field ".data ++ "Bogus".data ++ " in type templateData".data,
      by rw [h2]; rfl⟩,
    by unfold Log; rw [h1]; rfl, by unfold Log; rw [h2]; rfl⟩

theorem c5_witness :
    (∃ d, (LogE (unclosedLogger LevelInfo) LevelInfo "m".data).map (fun r => r.error) =
      some (some ("error parsing template: ".data ++ d))) ∧
    (∃ d, (LogE (badFieldLogger LevelInfo) LevelInfo "m".data).map (fun r => r.error) =
      some (some ("error executing template: ".data ++ d))) ∧
    Log (unclosedLogger LevelInfo) LevelInfo "m".data = some ([], "m".data, false) ∧
    Log (badFieldLogger LevelInfo) LevelInfo "m".data = some ([], "m".data, false) :=
  c5_template_error_wrapping LevelInfo LevelInfo "m".data "INFO".data "m".data
    (by decide) (by decide) (by decide)

/-- C6 counterexample: template failures do not always leave the sink
untouched.  With the template that puts the literal A before the bad
field action, the call fails with an execution error, yet the byte A has
already been written to the sink by the time execution stops. -/
theorem c6_counterexample :
    LogE partialWriteLogger LevelInfo "m".data =
      some { error := some ("error executing template: ".data ++
               ("cannot evaluate field ".data ++ "Bogus".data ++ " in type templateData".data)),
             written := "A".data, msgAfterPre := "m".data, postRan := false,
             finalMessage := "m".data } ∧
    "A".data ≠ ([] : List Char) := ⟨rfl, by decide⟩

/-- C6 amended: a template parse failure writes nothing to the sink; any
failing call (parse failure, execution failure, or a sink write error
surfacing through execution) runs no post-hook; and Log is the same
pipeline with the returned error discarded, keeping only the side
effects.  What execution had already streamed to the sink before the
failing action stays written. -/
theorem c6_amended_template_failures (l : Logger) (level : Level) (message : List Char)
    (r : LogResult) (h : LogE l level message = some r) (he : r.error ≠ none) :
    r.postRan = false ∧
    (∀ d, parseTemplate (l.template ++ ['\n']) = .error d → r.written = []) ∧
    Log l level message = some (r.written, r.finalMessage, r.postRan) := by
  have key : r.postRan = false ∧
      (∀ d, parseTemplate (l.template ++ ['\n']) = .error d → r.written = []) := by
    unfold LogE logAfterPre at h
    split at h
    · injection h with h
      subst h
      exact absurd rfl he
    · split at h
      · exact absurd h (by simp)
      · split at h
        · injection h with h
          subst h
          exact ⟨rfl, fun d hd => rfl⟩
        · split at h
          · injection h with h
            subst h
            rename_i hparse pairv written d hexec
            refine ⟨rfl, fun d0 hd0 => ?_⟩
            rw [hparse] at hd0
            exact absurd hd0 (by simp)
          · injection h with h
            subst h
            exact absurd rfl he
  exact ⟨key.1, key.2, by unfold Log; rw [h]; rfl⟩

theorem c6_amended_witness :
    Log (unclosedLogger LevelInfo) LevelInfo "m".data = some ([], "m".data, false) := by
  have h := c6_amended_template_failures (unclosedLogger LevelInfo) LevelInfo "m".data
      { error := some ("error parsing template: ".data ++ "unclosed action".data),
        written := [], msgAfterPre := "m".data, postRan := false, finalMessage := "m".data }
      rfl (by simp)
  exact h.2.2

/-- C7 counterexample: the sink write error is not ignored.  With a sink
whose writes fail, LogE returns a non-nil error (the write error wrapped
by the execution-error prefix) instead of nil. -/
theorem c7_counterexample :
    LogE failingSinkLogger LevelInfo "m".data =
      some { error := some ("error executing template: ".data ++ "write error".data),
             written := [], msgAfterPre := "m".data, postRan := false,
             finalMessage := "m".data } ∧
    (LogE failingSinkLogger LevelInfo "m".data).map (fun r => r.error) ≠ some none :=
  ⟨rfl, by decide⟩

/-- C7 amended: every error LogE returns carries one of the two template
wrapper prefixes; a failing sink write is checked after all — it
surfaces through template execution wrapped by the execution prefix, as
the counterexample exhibits, rather than LogE returning nil. -/
theorem c7_amended_error_kinds (l : Logger) (level : Level) (message : List Char)
    (r : LogResult) (e : List Char) (h : LogE l level message = some r)
    (he : r.error = some e) :
    (∃ d, e = "error parsing template: ".data ++ d) ∨
    (∃ d, e = "error executing template: ".data ++ d) := by
  unfold LogE logAfterPre at h
  split at h
  · injection h with h
    subst h
    exact absurd he (by simp)
  · split at h
    · exact absurd h (by simp)
    · split at h
      · injection h with h
        subst h
        simp only at he
        injection he with he
        exact Or.inl ⟨_, he.symm⟩
      · split at h
        · injection h with h
          subst h
          simp only at he
          injection he with he
          exact Or.inr ⟨_, he.symm⟩
        · injection h with h
          subst h
          exact absurd he (by simp)

theorem c7_amended_witness :
    (∃ d, "error executing template: ".data ++ "write error".data =
      "error parsing template: ".data ++ d) ∨
    (∃ d, "error executing template: ".data ++ "write error".data =
      "error executing template: ".data ++ d) :=
  c7_amended_error_kinds failingSinkLogger LevelInfo "m".data
    { error := some ("error executing template: ".data ++ "write error".data),
      written := [], msgAfterPre := "m".data, postRan := false, finalMessage := "m".data }
    ("error executing template: ".data ++ "write error".data) rfl rfl

/-- The hook fixture keeps the pinned clock of the tests. -/
theorem hookLogger_format (A B C D : Hook) (threshold : Level) :
    formatTime ((hookLogger A B C D threshold).now ())
      (hookLogger A B C D threshold).timeFormat = "2022-01-25 00:00:00".data := by
  show formatTime (fakeNow ()) "2006-01-02 15:04:05".data = "2022-01-25 00:00:00".data
  rfl

/-- C8: hooks run in FIFO registration order: with pre-hooks [A, B] the
message becomes B applied after A before the threshold check, whatever
the gate decides; with post-hooks [C, D] an emitted call then applies C
and D in that order after the write. -/
theorem c8_hooks_fifo_order (A B C D : Hook) (threshold level : Level)
    (message name tm : List Char)
    (hname : Level.String level = some name)
    (htm : truncateString (B (A message)) 1000 = some tm) :
    (level < threshold → LogE (hookLogger A B C D threshold) level message =
      some { error := none, written := [], msgAfterPre := B (A message), postRan := false,
             finalMessage := B (A message) }) ∧
    (threshold ≤ level → LogE (hookLogger A B C D threshold) level message =
      some { error := none,
             written := "2022-01-25 00:00:00 [".data ++
               (padLeftSpaces 5 name ++ ("]: ".data ++ (tm ++ ['\n']))),
             msgAfterPre := B (A message), postRan := true,
             finalMessage := D (C (B (A message))) }) := by
  constructor
  · intro hlt
    unfold LogE
    exact logAfterPre_drop (hookLogger A B C D threshold) level (B (A message)) hlt
  · intro hth
    have hgate : ¬ (hookLogger A B C D threshold).Threshold > level := Nat.not_lt.mpr hth
    have hdata := getTemplateData_eq (hookLogger A B C D threshold) level (B (A message))
      name tm hname htm
    have hexec := executeTemplate_defaultNodes
        { Level := name,
          Time := formatTime ((hookLogger A B C D threshold).now ())
            (hookLogger A B C D threshold).timeFormat,
          Message := tm, Caller := getCaller (hookLogger A B C D threshold).callerProvider }
    have h := logAfterPre_emit (hookLogger A B C D threshold) level (B (A message)) _
      defaultNodes _ hgate hdata parseTemplate_default hexec
    unfold LogE
    refine h.trans ?_
    norm_num [hookLogger_format]
    rfl

theorem c8_witness :
    LogE (hookLogger (fun m => m ++ "a".data) (fun m => m ++ "b".data)
        (fun m => m ++ "c".data) (fun m => m ++ "d".data) LevelInfo) LevelInfo "m".data =
      some { error := none,
             written := "2022-01-25 00:00:00 [ INFO]: mab\n".data,
             msgAfterPre := "mab".data, postRan := true, finalMessage := "mabcd".data } := by
  have h := (c8_hooks_fifo_order (fun m => m ++ "a".data) (fun m => m ++ "b".data)
      (fun m => m ++ "c".data) (fun m => m ++ "d".data) LevelInfo LevelInfo "m".data
      "INFO".data "mab".data (by decide) (by decide)).2 (by decide)
  exact h.trans (by decide)

/-- C9: Level is byte-valued with display names only for the five
declared constants; for every byte value above 4, Level.String panics
with an index out of range, and a log call at such a level that reaches
rendering panics rather than returning. -/
theorem c9_level_string_panics_above_fatal (level : Level) (message : List Char)
    (h4 : 4 < level) (_h256 : level < 256) :
    Level.String level = none ∧ LogE (New LevelDebug []) level message = none := by
  have hs : Level.String level = none := by
    have h4n : (4 : Nat) < (level : Nat) := h4
    unfold Level.String
    refine List.get?_eq_none.mpr ?_
    simp only [levelNames, List.length_cons, List.length_nil]
    omega
  refine ⟨hs, ?_⟩
  unfold LogE
  exact logAfterPre_panic (New LevelDebug []) level message
    (Nat.not_lt.mpr (Nat.zero_le level))
    (getTemplateData_none_of_level (New LevelDebug []) level message hs)

theorem c9_witness :
    Level.String (5 : Level) = none ∧ LogE (New LevelDebug []) (5 : Level) "m".data = none :=
  c9_level_string_panics_above_fatal 5 "m".data (by decide) (by decide)

/-- C10: WithMaxSize accepts any integer, but with a negative maxSize
truncateString panics for every message (the length comparison always
favors the slice, whose negative bound is invalid), so every LogE call
at or above the threshold panics; with a nonnegative maxSize truncation
is total and the result length is the minimum of the message length and
maxSize. -/
theorem c10_negative_maxsize_panics (msz : Int) (message : List Char)
    (threshold level : Level) :
    (msz < 0 → truncateString message msz = none ∧
      (threshold ≤ level → LogE (New threshold [WithMaxSize msz]) level message = none)) ∧
    (0 ≤ msz → ∃ r, truncateString message msz = some r ∧
      (r.length : Int) = min (message.length : Int) msz) := by
  constructor
  · intro hneg
    have ht : truncateString message msz = none := by
      unfold truncateString
      rw [if_pos (by omega), if_pos hneg]
    refine ⟨ht, fun hth => ?_⟩
    unfold LogE
    exact logAfterPre_panic (New threshold [WithMaxSize msz]) level message
      (Nat.not_lt.mpr hth)
      (getTemplateData_none_of_trunc (New threshold [WithMaxSize msz]) level message ht)
  · intro hpos
    unfold truncateString
    split
    case isTrue hgt =>
      rw [if_neg (by omega)]
      exact ⟨_, rfl, by rw [List.length_take]; push_cast; omega⟩
    case isFalse hle =>
      exact ⟨message, rfl, by omega⟩

theorem c10_witness :
    truncateString "".data (-1) = none ∧
    LogE (New LevelInfo [WithMaxSize (-1)]) LevelInfo "".data = none ∧
    (∃ r, truncateString "abc".data (2 : Int) = some r ∧
      (r.length : Int) = min (("abc".data.length : Int)) 2) := by
  have h1 := (c10_negative_maxsize_panics (-1) "".data LevelInfo LevelInfo).1 (by decide)
  have h2 := (c10_negative_maxsize_panics (2 : Int) "abc".data LevelInfo LevelInfo).2 (by decide)
  exact ⟨h1.1, h1.2 (by decide), h2⟩
